import Mathlib

/-!
Verification of the unit-RNN rewriting skeleton
(`tf2onnx/rewriter/unit_rnn_rewriter_base.py`).

The embedding models the target graph as an explicit value threaded through
every operation that the Python code performs on `self.g`.  Node identifiers
are strings; a node has one output identifier.  External collaborators (the
structural graph matcher, the loop parser, the variant-supplied abstract
methods) are modelled as function parameters, faithful to the spec's contract
that they are read-only during feasibility analysis.
-/

namespace UnitRnn

/-- TensorProto dtype code for FLOAT, as used by the source's cast attributes. -/
def FLOAT : Int := 1

/-- TensorProto dtype code for INT32. -/
def INT32 : Int := 6

/-- TensorProto dtype code for INT64. -/
def INT64 : Int := 7

/-- A graph node: operator type, ordered input identifiers, integer-list
attributes (axes, starts, ends, and the cast target dtype under key "to"),
and a single output identifier. -/
structure ONode where
  op : String
  inputs : List String
  attrs : List (String × List Int)
  output : String
deriving DecidableEq, Repr

/-- The mutable target graph: the ordered node list, a fresh-name counter used
by node creation, and shape/dtype bookkeeping keyed by output identifier. -/
structure TGraph where
  nodes : List ONode
  fresh : Nat
  shapes : List (String × List Int)
  dtypes : List (String × Int)
deriving DecidableEq, Repr

/-- A fresh output identifier generated from the graph's counter. -/
def freshId (n : Nat) : String := String.append "node_" (toString n)

/-- Shape lookup (`self.g.get_shape`), `none` when the identifier has no
recorded shape. -/
def TGraph.get_shape (g : TGraph) (idt : String) : Option (List Int) :=
  g.shapes.lookup idt

/-- Dtype lookup (`self.g.get_dtype`). -/
def TGraph.get_dtype (g : TGraph) (idt : String) : Option Int :=
  g.dtypes.lookup idt

/-- Node creation (`self.g.make_node`): appends a node with a fresh output
identifier and records the optionally supplied shape and dtype of that
output. -/
def TGraph.make_node (g : TGraph) (op : String) (inputs : List String)
    (attrs : List (String × List Int)) (shapes : List (Option (List Int)))
    (dtypes : List (Option Int)) : ONode × TGraph :=
  let outId := freshId g.fresh
  let nd : ONode := { op := op, inputs := inputs, attrs := attrs, output := outId }
  let shapes' := match shapes with
    | some s :: _ => (outId, s) :: g.shapes
    | _ => g.shapes
  let dtypes' := match dtypes with
    | some d :: _ => (outId, d) :: g.dtypes
    | _ => g.dtypes
  (nd, { nodes := g.nodes ++ [nd], fresh := g.fresh + 1, shapes := shapes', dtypes := dtypes' })

/-- Producer lookup (`self.g.get_node_by_output`). -/
def TGraph.get_node_by_output (g : TGraph) (idt : String) : Option ONode :=
  g.nodes.find? (fun nd => nd.output == idt)

/-- Rewrite one node's input list, replacing every occurrence of `oldId` by
`newId`. -/
def ONode.replace_input (nd : ONode) (oldId newId : String) : ONode :=
  { nd with inputs := nd.inputs.map (fun s => if s = oldId then newId else s) }

/-- Consumer rewiring over the whole node set
(`self.g.replace_all_inputs(self.g.get_nodes(), old, new)`). -/
def TGraph.replace_all_inputs (g : TGraph) (oldId newId : String) : TGraph :=
  { g with nodes := g.nodes.map (fun nd => nd.replace_input oldId newId) }

/-- A loop tensor descriptor carrying its graph identifier
(tf2onnx's `TensorValueInfo`). -/
structure TValInfo where
  id : String
deriving DecidableEq, Repr

/-- A resolved state variable: identifiers of the value fed into the next
iteration, the switch-true identity output, and the loop exit output. -/
structure StateVariable where
  next_iteration_input : TValInfo
  switch_true_identity_output : TValInfo
  exit_output : TValInfo
deriving DecidableEq, Repr

/-- The symbolic loop description produced by the external loop extractor. -/
structure LoopProperties where
  state_inputs : List TValInfo
  state_outputs : List TValInfo
  scan_inputs : List TValInfo
  scan_outputs : List TValInfo
  scan_inputs_initial_values : List String
  scan_outputs_exits : List TValInfo
deriving DecidableEq, Repr

/-- A binding table produced by the structural matcher: pattern slot name to
matched graph node (`OpMatchResult`, queried by `get_op`). -/
abbrev Match := List (String × ONode)

/-- Python-dict insertion: replace the value of the first occurrence of an
existing key in place, otherwise append; preserves insertion order. -/
def dictInsert {α : Type} : List (String × α) → String → α → List (String × α)
  | [], k, v => [(k, v)]
  | (k0, v0) :: rest, k, v =>
    if k0 == k then (k, v) :: rest else (k0, v0) :: dictInsert rest k v

/-- The per-candidate rewrite context (`UnitRnnContext`): every field the
skeleton reads or writes during feasibility checking and rewriting. -/
structure Ctx where
  while_context_scope : String
  loop_properties : LoopProperties
  rnn_scope : Option String
  cell_match : Option Match
  weights : List (String × String)
  seq_len_node : Option ONode
  state_variables : List (String × StateVariable)
  attributes : List (String × Int)
  onnx_input_ids : List (String × String)
  rnn_node : Option ONode
deriving DecidableEq, Repr

/-- A finder locates one state variable under a structural idiom; it reads the
evolving context. -/
abbrev Finder := Ctx → Option StateVariable

/-- A state-variable handler: an ordered mapping from logical variable name to
its finder (the connector part plays no role in feasibility checking and is
omitted). -/
abbrev Handler := List (String × Finder)

/-- The cell-matching core of `UnitRnnRewriterBase._match_cell`: the external
structural matcher's results over the loop body are the `match_results`
parameter; exactly one result is success, zero or several are failure. -/
def _match_cell (match_results : List Match) : Option Match :=
  if match_results.length ≠ 1 then none
  else match_results.head?

/-- Inner loop of `get_state_variables` over one handler: run each variable's
finder in order, recording every found variable in the context; stop at the
first failure, keeping the writes made so far. -/
def run_handler : Handler → Ctx → Bool × Ctx
  | [], ctx => (true, ctx)
  | (var_name, finder) :: rest, ctx =>
    match finder ctx with
    | some state_variable =>
      run_handler rest
        { ctx with state_variables := dictInsert ctx.state_variables var_name state_variable }
    | none => (false, ctx)

/-- `UnitRnnRewriterBase.get_state_variables`: try each handler in order on the
evolving context; the first handler whose finders all succeed is selected and
returned (the assignment to `self.state_variable_handler`), together with
`True`; if none fully resolves, return `False` with no handler selected. -/
def get_state_variables : List Handler → Ctx → Bool × Ctx × Option Handler
  | [], ctx => (false, ctx, none)
  | handler :: rest, ctx =>
    let r := run_handler handler ctx
    if r.1 then (true, r.2, some handler)
    else get_state_variables rest r.2

/-- Modelled from the spec: the external predicate
`tf2onnx.utils.is_tf_select_op` (not under the provided sources), recognising a
per-element conditional-selection operator: the TensorFlow select/where-style
operator types. -/
def is_tf_select_op (nd : ONode) : Bool :=
  nd.op == "Select" || nd.op == "SelectV2"

/-- `UnitRnnRewriterBase.find_sequence_length_node`: take the first resolved
state variable, find the producer of its next-iteration input; if that
producer is not a conditional selection, report absence (`ok none`); if it is,
match the fixed sequence-length pattern (the external matcher is the
`seq_match` parameter) and raise a fatal error when the pattern does not
match. -/
def find_sequence_length_node (g : TGraph) (seq_match : ONode → Option Match)
    (ctx : Ctx) : Except String (Option ONode) :=
  match ctx.state_variables with
  | [] => .error "list index out of range"
  | (_, state_variable) :: _ =>
    match g.get_node_by_output state_variable.next_iteration_input.id with
    | none => .error "next iteration input has no producer"
    | some next_iter_input_node =>
      if !is_tf_select_op next_iter_input_node then .ok none
      else
        match seq_match next_iter_input_node with
        | none => .error "failed to find sequence length."
        | some match_result => .ok (match_result.lookup "seq_len_node")

/-- The external collaborators and variant-supplied abstract methods invoked by
the skeleton, modelled as read-only functions per the spec's feasibility
contract. -/
structure Hooks where
  get_rnn_scope_name : String → String
  parse_rnn_loop : LoopProperties → String → String → Bool
  find_cell : Ctx → Option Match
  get_weight_and_bias : Ctx → List (String × String)
  parse_attributes : Ctx → Bool × Ctx
  is_valid : Ctx → Bool
  state_variable_handlers : List Handler
  seq_match : ONode → Option Match

/-- `UnitRnnRewriterBase.parse_unit_rnn`: cell match, weights, state
variables, optional sequence-length node, the exactly-one-scan-input check
binding role X, then attribute parsing; short-circuits with `False` on each
soft failure, and propagates the sequence-length resolver's fatal error. -/
def parse_unit_rnn (hooks : Hooks) (g : TGraph) (ctx : Ctx) :
    Except String (Bool × Ctx) :=
  match hooks.find_cell ctx with
  | none => .ok (false, ctx)
  | some cm =>
    let ctx1 := { ctx with cell_match := some cm }
    let weights := hooks.get_weight_and_bias ctx1
    if weights.isEmpty then .ok (false, ctx1)
    else
      let ctx2 := { ctx1 with weights := weights }
      let r := get_state_variables hooks.state_variable_handlers ctx2
      if !r.1 then .ok (false, r.2.1)
      else
        match find_sequence_length_node g hooks.seq_match r.2.1 with
        | .error e => .error e
        | .ok found =>
          let ctx3 := match found with
            | some nd => { r.2.1 with seq_len_node := some nd }
            | none => r.2.1
          let inputs := ctx3.loop_properties.scan_inputs_initial_values
          if inputs.length ≠ 1 then .ok (false, ctx3)
          else
            let ctx4 :=
              { ctx3 with onnx_input_ids := dictInsert ctx3.onnx_input_ids "X" ctx3.loop_properties.scan_inputs_initial_values.headI }
            match hooks.parse_attributes ctx4 with
            | (false, ctx5) => .ok (false, ctx5)
            | (true, ctx5) => .ok (true, ctx5)

/-- `UnitRnnRewriterBase.need_rewrite`: resolve the scope name, delegate to the
external loop parser, run `parse_unit_rnn`, then the variant validity
predicate; the graph is threaded through unchanged because feasibility
analysis only reads it. -/
def need_rewrite (hooks : Hooks) (g : TGraph) (ctx : Ctx) :
    Except String (Bool × Ctx × TGraph) :=
  let scope := hooks.get_rnn_scope_name ctx.while_context_scope
  let ctx0 := { ctx with rnn_scope := some scope }
  if !hooks.parse_rnn_loop ctx0.loop_properties scope ctx0.while_context_scope then
    .ok (false, ctx0, g)
  else
    match parse_unit_rnn hooks g ctx0 with
    | .error e => .error e
    | .ok (b, ctx1) =>
      if !b then .ok (false, ctx1, g)
      else if !hooks.is_valid ctx1 then .ok (false, ctx1, g)
      else .ok (true, ctx1, g)

/-- Modelled from the spec: the external slice-builder helper of the
target-graph builder (`GraphBuilder.make_slice`, not under the provided
sources), which materialises one slice operation over the given data with the
given axes/starts/ends and returns its output identifier. -/
def make_slice (g : TGraph) (data : String) (axes starts ends : List Int) :
    String × TGraph :=
  let r := g.make_node "Slice" [data]
    [("axes", axes), ("starts", starts), ("ends", ends)] [] []
  (r.1.output, r.2)

/-- `UnitRnnRewriterBase.process_seq_length`: unconditionally derive the input
shape, cast it to float and slice out the batch size; when no explicit
sequence-length node was found, additionally cast the batch size to int64,
slice out the time step, tile it batch-size times and cast to int32; bind the
result (or the found node's output) to role `sequence_lens`. -/
def process_seq_length (g : TGraph) (ctx : Ctx) : Ctx × TGraph :=
  let seq_len_found := ctx.seq_len_node
  let xId := (ctx.onnx_input_ids.lookup "X").getD ""
  let r1 := g.make_node "Shape" [xId] [] [] []
  let shape_node := r1.1
  let g1 := r1.2
  let r2 := g1.make_node "Cast" [shape_node.output] [("to", [FLOAT])]
    [g1.get_shape shape_node.output] []
  let cast_shape_node := r2.1
  let g2 := r2.2
  let r3 := make_slice g2 cast_shape_node.output [0] [1] [2]
  let batchsize_id := r3.1
  let g3 := r3.2
  match seq_len_found with
  | some nd =>
    ({ ctx with onnx_input_ids := dictInsert ctx.onnx_input_ids "sequence_lens" nd.output }, g3)
  | none =>
    let r4 := g3.make_node "Cast" [batchsize_id] [("to", [INT64])] [] []
    let repeat_node := r4.1
    let g4 := r4.2
    let r5 := make_slice g4 cast_shape_node.output [0] [0] [1]
    let timestep_id := r5.1
    let g5 := r5.2
    let r6 := g5.make_node "Tile" [timestep_id, repeat_node.output] [] [] []
    let tile_node := r6.1
    let g6 := r6.2
    let r7 := g6.make_node "Cast" [tile_node.output] [("to", [INT32])] [] []
    let seq_node := r7.1
    let g7 := r7.2
    ({ ctx with onnx_input_ids := dictInsert ctx.onnx_input_ids "sequence_lens" seq_node.output }, g7)

/-- `UnitRnnRewriterBase.connect_unit_rnn_output_to_graph`: when the loop has
no scan-output exit consumer, do nothing; otherwise squeeze the fused node's
4-axis output over axis 1 (dropping the direction axis from its shape) and
rewire every input that referenced the original scan-output exit identifier to
the squeeze output. -/
def connect_unit_rnn_output_to_graph (g : TGraph) (ctx : Ctx) :
    Except String TGraph :=
  match ctx.loop_properties.scan_outputs_exits with
  | [] => .ok g
  | out0 :: _ =>
    let gather_output_id := out0.id
    match ctx.rnn_node with
    | none => .error "rnn_node is not set"
    | some rnn_node =>
      let output_id := rnn_node.output
      match g.get_shape output_id with
      | some (s0 :: _ :: s2 :: s3 :: _) =>
        let squeeze_output_shape := [s0, s2, s3]
        let r := g.make_node "Squeeze" [output_id] [("axes", [1])]
          [some squeeze_output_shape] [g.get_dtype output_id]
        .ok (r.2.replace_all_inputs gather_output_id r.1.output)
      | _ => .error "rnn output shape has fewer than four axes"

/-- A tensor value for evaluating the synthesized sequence-length subgraph:
dtype code, dimension list and flattened integer contents (the chain only ever
manipulates integral shape data). -/
structure TensorVal where
  dtype : Int
  dims : List Int
  flat : List Int
deriving DecidableEq, Repr

/-- One-step evaluation of the operators appearing in the synthesized chain:
Shape, Cast (exact on the integral values handled here), axis-0 Slice of a
rank-1 tensor, and Tile of a rank-1 tensor by a rank-1 repeats tensor. -/
def evalNode (env : List (String × TensorVal)) (nd : ONode) : Option TensorVal :=
  if nd.op = "Shape" then
    match nd.inputs with
    | [a] =>
      match env.lookup a with
      | some t => some { dtype := INT64, dims := [Int.ofNat t.dims.length], flat := t.dims }
      | none => none
    | _ => none
  else if nd.op = "Cast" then
    match nd.inputs, nd.attrs.lookup "to" with
    | [a], some [d] =>
      match env.lookup a with
      | some t => some { t with dtype := d }
      | none => none
    | _, _ => none
  else if nd.op = "Slice" then
    match nd.inputs, nd.attrs.lookup "axes", nd.attrs.lookup "starts", nd.attrs.lookup "ends" with
    | [a], some [0], some [s], some [e] =>
      match env.lookup a with
      | some t =>
        let xs := (t.flat.drop s.toNat).take (e.toNat - s.toNat)
        some { dtype := t.dtype, dims := [Int.ofNat xs.length], flat := xs }
      | none => none
    | _, _, _, _ => none
  else if nd.op = "Tile" then
    match nd.inputs with
    | [a, r] =>
      match env.lookup a, env.lookup r with
      | some t, some reps =>
        match reps.flat with
        | [k] =>
          let xs := (List.replicate k.toNat t.flat).flatten
          some { dtype := t.dtype, dims := [Int.ofNat xs.length], flat := xs }
        | _ => none
      | _, _ => none
    | _ => none
  else none

/-- Evaluate a node list in order, binding each node's output in the
environment (most recent binding first). -/
def evalNodes : List ONode → List (String × TensorVal) → List (String × TensorVal)
  | [], env => env
  | nd :: rest, env =>
    match evalNode env nd with
    | some v => evalNodes rest ((nd.output, v) :: env)
    | none => evalNodes rest env

/-! Shared helper lemmas. -/

/-- Looking up the inserted key returns the inserted value. -/
lemma dictInsert_lookup_self {α : Type} (m : List (String × α)) (k : String) (v : α) :
    (dictInsert m k v).lookup k = some v := by
  induction m with
  | nil => simp [dictInsert, List.lookup]
  | cons a m ih =>
    obtain ⟨k0, v0⟩ := a
    by_cases h : k0 = k
    · simp [dictInsert, h, List.lookup]
    · have hb : (k0 == k) = false := by simp [h]
      have hb' : (k == k0) = false := by simp [Ne.symm h]
      simp [dictInsert, hb, List.lookup, hb', ih]

/-- Looking up a different key is unaffected by insertion. -/
lemma dictInsert_lookup_ne {α : Type} (m : List (String × α)) (k1 k2 : String) (v : α)
    (h : k2 ≠ k1) : (dictInsert m k1 v).lookup k2 = m.lookup k2 := by
  induction m with
  | nil => simp [dictInsert, List.lookup, show (k2 == k1) = false by simp [h]]
  | cons a m ih =>
    obtain ⟨k0, v0⟩ := a
    by_cases h0 : k0 = k1
    · subst h0
      simp [dictInsert, List.lookup, show (k2 == k0) = false by simp [h]]
    · simp [dictInsert, show (k0 == k1) = false by simp [h0], List.lookup, ih]

/-- Running one handler touches only the `state_variables` field of the
context. -/
lemma run_handler_preserves (h : Handler) (c : Ctx) :
    (run_handler h c).2.loop_properties = c.loop_properties ∧
    (run_handler h c).2.onnx_input_ids = c.onnx_input_ids := by
  induction h generalizing c with
  | nil => exact ⟨rfl, rfl⟩
  | cons p rest ih =>
    obtain ⟨name, f⟩ := p
    cases hf : f c with
    | none => simp [run_handler, hf]
    | some sv => simpa [run_handler, hf] using ih _

/-- State-variable resolution touches only the `state_variables` field of the
context. -/
lemma get_state_variables_preserves (hs : List Handler) (c : Ctx) :
    (get_state_variables hs c).2.1.loop_properties = c.loop_properties ∧
    (get_state_variables hs c).2.1.onnx_input_ids = c.onnx_input_ids := by
  induction hs generalizing c with
  | nil => exact ⟨rfl, rfl⟩
  | cons h rest ih =>
    cases hr : (run_handler h c).1 with
    | true =>
      have := run_handler_preserves h c
      simp [get_state_variables, hr, this.1, this.2]
    | false =>
      have h1 := run_handler_preserves h c
      have h2 := ih (run_handler h c).2
      simp only [get_state_variables, hr, Bool.false_eq_true, if_false]
      exact ⟨h2.1.trans h1.1, h2.2.trans h1.2⟩

/-- Flattening `n` copies of a singleton list replicates its element. -/
lemma flatten_replicate_singleton {α : Type} (n : Nat) (a : α) :
    (List.replicate n [a]).flatten = List.replicate n a := by
  induction n with
  | zero => rfl
  | succ k ih => simp [List.replicate_succ, ih]

/-! Concrete fixtures used by witnesses and counterexamples. -/

/-- An empty target graph. -/
def gE : TGraph := ⟨[], 0, [], []⟩

/-- Loop properties with a single scan input. -/
def lpE : LoopProperties := ⟨[], [], [], [], ["xin"], []⟩

/-- A fresh candidate context over `lpE`. -/
def ctxE : Ctx := ⟨"rnn/while", lpE, none, none, [], none, [], [], [], none⟩

/-- A concrete state variable whose next-iteration input is `sel_out`. -/
def svW : StateVariable := ⟨⟨"sel_out"⟩, ⟨"sti_out"⟩, ⟨"exit_out"⟩⟩

/-- A conditional-selection node producing `sel_out`. -/
def ndSelect : ONode := ⟨"Select", ["cond", "a0", "b0"], [], "sel_out"⟩

/-- A graph containing only the selection node. -/
def gSel : TGraph := ⟨[ndSelect], 0, [], []⟩

/-- A matcher-result function modelling a cell pattern with zero structural
matches on every loop body. -/
def noMatches : Ctx → List Match := fun _ => []

/-- Hooks whose cell matcher never finds a unique match and whose remaining
collaborators are trivial. -/
def hooksNoCell : Hooks :=
  { get_rnn_scope_name := fun s => s
    parse_rnn_loop := fun _ _ _ => true
    find_cell := fun c => _match_cell (noMatches c)
    get_weight_and_bias := fun _ => []
    parse_attributes := fun c => (true, c)
    is_valid := fun _ => true
    state_variable_handlers := []
    seq_match := fun _ => none }

/-- The context `ctxE` after `need_rewrite` has resolved its scope name under
`hooksNoCell`. -/
def ctxE1 : Ctx := { ctxE with rnn_scope := some "rnn/while" }

/-- A finder that always resolves to `svW`. -/
def fOk : Finder := fun _ => some svW

/-- A finder that always fails. -/
def fNone : Finder := fun _ => none

/-- A handler for variables `h` and `c` whose `c` finder fails. -/
def handlerA : Handler := [("h", fOk), ("c", fNone)]

/-- A handler for variable `h` alone, fully resolving. -/
def handlerB : Handler := [("h", fOk)]

/-! Claim theorems. -/

/-- C1: when the structural matcher returns zero matches or more than one
match for every candidate loop body, `_match_cell` returns no binding,
`need_rewrite` returns false, and the context's `cell_match` field remains
unset. -/
theorem c1_ambiguous_or_absent_cell_match_rejected
    (hooks : Hooks) (g : TGraph) (ctx : Ctx) (results : Ctx → List Match)
    (hfc : hooks.find_cell = fun c => _match_cell (results c))
    (hlen : ∀ c, (results c).length ≠ 1)
    (hcm : ctx.cell_match = none) :
    (∀ c, hooks.find_cell c = none) ∧
    ∃ ctx1, need_rewrite hooks g ctx = .ok (false, ctx1, g) ∧ ctx1.cell_match = none := by
  have hnone : ∀ c, hooks.find_cell c = none := by
    intro c
    rw [hfc]
    simp only [_match_cell, if_pos (hlen c)]
  refine ⟨hnone, ?_⟩
  simp only [need_rewrite, parse_unit_rnn, hnone]
  split
  · exact ⟨_, rfl, hcm⟩
  · exact ⟨_, rfl, hcm⟩

/-- Witness for C1 at a concrete candidate with zero matches. -/
theorem c1_witness :
    (∀ c, hooksNoCell.find_cell c = none) ∧
    ∃ ctx1, need_rewrite hooksNoCell gE ctxE = .ok (false, ctx1, gE) ∧
      ctx1.cell_match = none :=
  c1_ambiguous_or_absent_cell_match_rejected hooksNoCell gE ctxE noMatches rfl
    (fun _ => Nat.zero_ne_one) rfl

/-- C2: whenever `need_rewrite` returns a boolean verdict, the target graph it
hands back is identical to the one it was given: feasibility analysis performs
no graph mutation. -/
theorem c2_need_rewrite_graph_frame
    (hooks : Hooks) (g : TGraph) (ctx : Ctx) (b : Bool) (ctx1 : Ctx) (g1 : TGraph)
    (h : need_rewrite hooks g ctx = .ok (b, ctx1, g1)) : g1 = g := by
  simp only [need_rewrite] at h
  split at h
  · simp only [Except.ok.injEq, Prod.mk.injEq] at h
    exact h.2.2.symm
  · split at h
    · exact absurd h (by simp)
    · split at h
      · simp only [Except.ok.injEq, Prod.mk.injEq] at h
        exact h.2.2.symm
      · split at h
        · simp only [Except.ok.injEq, Prod.mk.injEq] at h
          exact h.2.2.symm
        · simp only [Except.ok.injEq, Prod.mk.injEq] at h
          exact h.2.2.symm

/-- Witness for C2 at a concrete feasibility run. -/
theorem c2_witness : gE = gE :=
  c2_need_rewrite_graph_frame hooksNoCell gE ctxE false ctxE1 gE rfl

/-- C5: handler selection is first-fully-resolving-wins: when the first
handler fails and the second fully resolves on the context the first left
behind, `get_state_variables` returns true, selects exactly the second
handler, and its outcome does not depend on any handler after the selected
one. -/
theorem c5_first_fully_resolving_handler_wins
    (h1 h2 : Handler) (rest : List Handler) (ctx : Ctx)
    (hfail : (run_handler h1 ctx).1 = false)
    (hok : (run_handler h2 (run_handler h1 ctx).2).1 = true) :
    (get_state_variables (h1 :: h2 :: rest) ctx).1 = true ∧
    (get_state_variables (h1 :: h2 :: rest) ctx).2.2 = some h2 ∧
    get_state_variables (h1 :: h2 :: rest) ctx = get_state_variables [h1, h2] ctx := by
  have key : get_state_variables (h1 :: h2 :: rest) ctx =
      (true, (run_handler h2 (run_handler h1 ctx).2).2, some h2) := by
    simp [get_state_variables, hfail, hok]
  have key2 : get_state_variables [h1, h2] ctx =
      (true, (run_handler h2 (run_handler h1 ctx).2).2, some h2) := by
    simp [get_state_variables, hfail, hok]
  exact ⟨by rw [key], by rw [key], key.trans key2.symm⟩

/-- Witness for C5 with a failing two-variable handler followed by a
resolving one-variable handler. -/
theorem c5_witness :
    (get_state_variables [handlerA, handlerB] ctxE).1 = true ∧
    (get_state_variables [handlerA, handlerB] ctxE).2.2 = some handlerB ∧
    get_state_variables [handlerA, handlerB] ctxE =
      get_state_variables [handlerA, handlerB] ctxE :=
  c5_first_fully_resolving_handler_wins handlerA handlerB [] ctxE rfl rfl

/-- C10: `state_variables` is never cleared between handler attempts: a
variable resolved by an earlier, ultimately failing handler persists after a
later handler is selected, so the final mapping can strictly exceed the
selected handler's variable names. -/
theorem c10_partial_finds_persist_across_handlers
    (v w u : String) (fv fw fu : Finder) (rest : List Handler) (ctx : Ctx)
    (sv1 svu : StateVariable)
    (hv : fv ctx = some sv1)
    (hw : fw { ctx with state_variables := dictInsert ctx.state_variables v sv1 } = none)
    (hu : fu { ctx with state_variables := dictInsert ctx.state_variables v sv1 } = some svu)
    (hvu : v ≠ u) :
    (get_state_variables ([(v, fv), (w, fw)] :: [(u, fu)] :: rest) ctx).1 = true ∧
    (get_state_variables ([(v, fv), (w, fw)] :: [(u, fu)] :: rest) ctx).2.2 = some [(u, fu)] ∧
    (get_state_variables ([(v, fv), (w, fw)] :: [(u, fu)] :: rest) ctx).2.1.state_variables.lookup v = some sv1 ∧
    (get_state_variables ([(v, fv), (w, fw)] :: [(u, fu)] :: rest) ctx).2.1.state_variables.lookup u = some svu ∧
    v ∉ ([(u, fu)] : Handler).map Prod.fst := by
  have hrh1 : run_handler [(v, fv), (w, fw)] ctx =
      (false, { ctx with state_variables := dictInsert ctx.state_variables v sv1 }) := by
    simp [run_handler, hv, hw]
  have hrh2 : run_handler [(u, fu)]
      { ctx with state_variables := dictInsert ctx.state_variables v sv1 } =
      (true,
        { ctx with
            state_variables := dictInsert (dictInsert ctx.state_variables v sv1) u svu }) := by
    simp [run_handler, hu]
  have key : get_state_variables ([(v, fv), (w, fw)] :: [(u, fu)] :: rest) ctx =
      (true,
        { ctx with
            state_variables := dictInsert (dictInsert ctx.state_variables v sv1) u svu },
        some [(u, fu)]) := by
    simp [get_state_variables, hrh1, hrh2]
  rw [key]
  refine ⟨rfl, rfl, ?_, ?_, ?_⟩
  · rw [dictInsert_lookup_ne _ _ _ _ hvu, dictInsert_lookup_self]
  · rw [dictInsert_lookup_self]
  · simp [hvu]

/-- Witness for C10: the `h` entry found by the failed first handler persists
next to the selected handler's `g` entry. -/
theorem c10_witness :
    (get_state_variables [[("h", fOk), ("c", fNone)], [("g", fOk)]] ctxE).1 = true ∧
    (get_state_variables [[("h", fOk), ("c", fNone)], [("g", fOk)]] ctxE).2.2 = some [("g", fOk)] ∧
    (get_state_variables [[("h", fOk), ("c", fNone)], [("g", fOk)]] ctxE).2.1.state_variables.lookup "h" = some svW ∧
    (get_state_variables [[("h", fOk), ("c", fNone)], [("g", fOk)]] ctxE).2.1.state_variables.lookup "g" = some svW ∧
    "h" ∉ ([("g", fOk)] : Handler).map Prod.fst :=
  c10_partial_finds_persist_across_handlers "h" "c" "g" fOk fNone fOk [] ctxE svW svW
    rfl rfl rfl (by decide)

/-- A context whose first resolved state variable is `svW`. -/
def ctxSel : Ctx := { ctxE with state_variables := [("h", svW)] }

/-- C3: when the producer of the chosen state variable's next-iteration input
is a conditional-selection operator but the fixed sequence-length pattern
fails to match around it, `find_sequence_length_node` raises the fatal error;
when that producer is not a selection operator it returns absence without
raising. -/
theorem c3_seq_len_select_mismatch_is_fatal
    (g : TGraph) (seq_match : ONode → Option Match) (ctx : Ctx)
    (name : String) (sv : StateVariable) (tl : List (String × StateVariable)) (nd : ONode)
    (hsv : ctx.state_variables = (name, sv) :: tl)
    (hprod : g.get_node_by_output sv.next_iteration_input.id = some nd) :
    (is_tf_select_op nd = false → find_sequence_length_node g seq_match ctx = .ok none) ∧
    (is_tf_select_op nd = true → seq_match nd = none →
      find_sequence_length_node g seq_match ctx = .error "failed to find sequence length.") := by
  constructor
  · intro hsel
    simp [find_sequence_length_node, hsv, hprod, hsel]
  · intro hsel hm
    simp [find_sequence_length_node, hsv, hprod, hsel, hm]

/-- Witness for C3: a selection producer with a failing pattern match raises
the fatal error. -/
theorem c3_witness :
    find_sequence_length_node gSel (fun _ => none) ctxSel =
      .error "failed to find sequence length." :=
  (c3_seq_len_select_mismatch_is_fatal gSel (fun _ => none) ctxSel "h" svW [] ndSelect
    rfl rfl).2 rfl rfl

/-- Whenever `parse_unit_rnn` returns a verdict on a candidate whose scan-input
count differs from one, the verdict is false and role X is still unbound. -/
lemma parse_unit_rnn_non_single_input (hooks : Hooks) (g : TGraph) (ctx : Ctx)
    (hlen : ctx.loop_properties.scan_inputs_initial_values.length ≠ 1)
    (hx : ctx.onnx_input_ids.lookup "X" = none) :
    ∀ b ctx1, parse_unit_rnn hooks g ctx = .ok (b, ctx1) →
      b = false ∧ ctx1.onnx_input_ids.lookup "X" = none := by
  intro b ctx1 h
  simp only [parse_unit_rnn] at h
  split at h
  · simp only [Except.ok.injEq, Prod.mk.injEq] at h
    refine ⟨h.1.symm, ?_⟩
    rw [← h.2]
    exact hx
  · split at h
    · simp only [Except.ok.injEq, Prod.mk.injEq] at h
      refine ⟨h.1.symm, ?_⟩
      rw [← h.2]
      exact hx
    · have hpres := get_state_variables_preserves hooks.state_variable_handlers
        { ctx with
            cell_match := some (by assumption),
            weights := hooks.get_weight_and_bias { ctx with cell_match := some (by assumption) } }
      split at h
      · simp only [Except.ok.injEq, Prod.mk.injEq] at h
        refine ⟨h.1.symm, ?_⟩
        rw [← h.2, hpres.2]
        exact hx
      · split at h
        · exact absurd h (by simp)
        · split at h
          · simp only [Except.ok.injEq, Prod.mk.injEq] at h
            refine ⟨h.1.symm, ?_⟩
            rw [← h.2]
            split
            · rw [hpres.2]
              exact hx
            · rw [hpres.2]
              exact hx
          · exfalso
            rename_i hcond
            apply hcond
            revert hlen
            split
            · rw [hpres.1]
              exact fun hl => hl
            · rw [hpres.1]
              exact fun hl => hl

/-- Loop properties with two scan inputs. -/
def lp2 : LoopProperties := ⟨[], [], [], [], ["a0", "b0"], []⟩

/-- A candidate context with two scan inputs. -/
def ctx2 : Ctx := ⟨"rnn/while", lp2, none, none, [], none, [], [], [], none⟩

/-- Hooks that pass every stage up to the sequence-length resolver, whose
pattern match then fails on the selection producer. -/
def hooksSelRaise : Hooks :=
  { get_rnn_scope_name := fun s => s
    parse_rnn_loop := fun _ _ _ => true
    find_cell := fun _ => some []
    get_weight_and_bias := fun _ => [("kernel", "w0")]
    parse_attributes := fun c => (true, c)
    is_valid := fun _ => true
    state_variable_handlers := [[("h", fOk)]]
    seq_match := fun _ => none }

/-- Counterexample for C4 as stated: with two scan inputs, `need_rewrite` can
raise instead of returning false. -/
theorem c4_counterexample :
    ctx2.loop_properties.scan_inputs_initial_values.length = 2 ∧
    need_rewrite hooksSelRaise gSel ctx2 = .error "failed to find sequence length." :=
  ⟨rfl, rfl⟩

/-- C4 (amended): for every candidate whose loop has a scan-input count other
than one, whenever `need_rewrite` returns a verdict at all — it may instead
raise the sequence-length structural error, which occurs before the
scan-input check — the verdict is false and role X was never bound. -/
theorem c4_non_single_scan_input_rejected
    (hooks : Hooks) (g : TGraph) (ctx : Ctx)
    (hlen : ctx.loop_properties.scan_inputs_initial_values.length ≠ 1)
    (hx : ctx.onnx_input_ids.lookup "X" = none) :
    ∀ b ctx1 g1, need_rewrite hooks g ctx = .ok (b, ctx1, g1) →
      b = false ∧ ctx1.onnx_input_ids.lookup "X" = none := by
  intro b ctx1 g1 h
  simp only [need_rewrite] at h
  split at h
  · simp only [Except.ok.injEq, Prod.mk.injEq] at h
    refine ⟨h.1.symm, ?_⟩
    rw [← h.2.1]
    exact hx
  · split at h
    · exact absurd h (by simp)
    · rename_i b0 ctxp hp
      have hsub := parse_unit_rnn_non_single_input hooks g
        { ctx with rnn_scope := some (hooks.get_rnn_scope_name ctx.while_context_scope) }
        hlen hx b0 ctxp hp
      split at h
      · simp only [Except.ok.injEq, Prod.mk.injEq] at h
        refine ⟨h.1.symm, ?_⟩
        rw [← h.2.1]
        exact hsub.2
      · split at h
        · simp only [Except.ok.injEq, Prod.mk.injEq] at h
          refine ⟨h.1.symm, ?_⟩
          rw [← h.2.1]
          exact hsub.2
        · rename_i hb0 _
          exfalso
          apply hb0
          rw [hsub.1]
          rfl

/-- The context `ctx2` after scope-name resolution under `hooksNoCell`. -/
def ctx2r : Ctx := { ctx2 with rnn_scope := some "rnn/while" }

/-- Witness for the amended C4 at a concrete two-scan-input candidate. -/
theorem c4_witness : false = false ∧ ctx2r.onnx_input_ids.lookup "X" = none :=
  c4_non_single_scan_input_rejected hooksNoCell gE ctx2 (by decide) rfl false ctx2r gE rfl

/-- A candidate context with role X bound to the loop input `xin`. -/
def ctxX : Ctx := { ctxE with onnx_input_ids := [("X", "xin")] }

/-- C6: with no explicit sequence-length source and a 3-axis loop input of
shape `[T, B, F]`, the synthesized sequence-length tensor bound to role
`sequence_lens` has exactly `B` elements, each equal to `T`, with dtype int32,
regardless of the source tensor's dtype. -/
theorem c6_synthesized_seq_lens_value
    (T B F : Nat) (dt : Int) (ctx : Ctx)
    (hseq : ctx.seq_len_node = none)
    (hx : ctx.onnx_input_ids.lookup "X" = some "xin") :
    ∃ sid v,
      (process_seq_length gE ctx).1.onnx_input_ids.lookup "sequence_lens" = some sid ∧
      (evalNodes (process_seq_length gE ctx).2.nodes
        [("xin", ⟨dt, [(T : Int), (B : Int), (F : Int)], []⟩)]).lookup sid = some v ∧
      v.dtype = INT32 ∧ v.flat.length = B ∧ ∀ x ∈ v.flat, x = (T : Int) := by
  have e13 : (freshId 1 == freshId 3) = false := by decide
  have e12 : (freshId 1 == freshId 2) = false := by decide
  have e34 : (freshId 3 == freshId 4) = false := by decide
  refine ⟨freshId 6, ⟨INT32, [(B : Int)], List.replicate B (T : Int)⟩, ?_, ?_, rfl, by simp, ?_⟩
  · simp [process_seq_length, hseq, hx, dictInsert_lookup_self, TGraph.make_node, make_slice, gE]
  · simp [process_seq_length, hseq, hx, TGraph.make_node, make_slice, gE, evalNodes, evalNode,
      List.lookup, e13, e12, e34, flatten_replicate_singleton]
  · intro x hmem
    exact List.eq_of_mem_replicate hmem

/-- Witness for C6 at `T = 5`, `B = 3`, `F = 4` with a float source tensor. -/
theorem c6_witness :
    ∃ sid v,
      (process_seq_length gE ctxX).1.onnx_input_ids.lookup "sequence_lens" = some sid ∧
      (evalNodes (process_seq_length gE ctxX).2.nodes
        [("xin", ⟨FLOAT, [(5 : Int), (3 : Int), (4 : Int)], []⟩)]).lookup sid = some v ∧
      v.dtype = INT32 ∧ v.flat.length = 3 ∧ ∀ x ∈ v.flat, x = (5 : Int) :=
  c6_synthesized_seq_lens_value 5 3 4 FLOAT ctxX rfl rfl

/-- Counterexample for C7 as stated: the synthesized sequence-length subgraph
does not consist of 4 new nodes. -/
theorem c7_counterexample :
    ctxX.seq_len_node = none ∧
    (process_seq_length gE ctxX).2.nodes.length - gE.nodes.length ≠ 4 := by
  exact ⟨rfl, by decide⟩

/-- C7 (amended): with no explicit sequence-length source, `process_seq_length`
adds exactly 7 new nodes — shape, cast, slice, cast, slice, tile, cast. -/
theorem c7_seq_len_synthesis_node_count
    (g : TGraph) (ctx : Ctx) (hseq : ctx.seq_len_node = none) :
    (process_seq_length g ctx).2.nodes.length = g.nodes.length + 7 ∧
    ((process_seq_length g ctx).2.nodes.drop g.nodes.length).map ONode.op =
      ["Shape", "Cast", "Slice", "Cast", "Slice", "Tile", "Cast"] := by
  constructor
  · simp [process_seq_length, hseq, TGraph.make_node, make_slice]
  · simp only [process_seq_length, hseq, TGraph.make_node, make_slice, List.append_assoc,
      List.singleton_append, List.cons_append, List.nil_append]
    rw [List.drop_left]
    rfl

/-- Witness for the amended C7 on the empty graph. -/
theorem c7_witness :
    (process_seq_length gE ctxX).2.nodes.length = gE.nodes.length + 7 ∧
    ((process_seq_length gE ctxX).2.nodes.drop gE.nodes.length).map ONode.op =
      ["Shape", "Cast", "Slice", "Cast", "Slice", "Tile", "Cast"] :=
  c7_seq_len_synthesis_node_count gE ctxX rfl

/-- A candidate context carrying an explicitly found sequence-length node. -/
def ctxC9 : Ctx := { ctxX with seq_len_node := some ndSelect }

/-- Counterexample for C9 as stated: even with an explicit sequence-length
source, `process_seq_length` adds new nodes to the graph. -/
theorem c9_counterexample :
    ctxC9.seq_len_node.isSome = true ∧
    gE.nodes.length = 0 ∧
    (process_seq_length gE ctxC9).2.nodes.length = 3 := by
  exact ⟨rfl, rfl, by decide⟩

/-- C9 (amended): with an explicit sequence-length source, the found node's
output is bound directly to role `sequence_lens` and none of the synthesis
chain (int64 cast, time-step slice, tile, int32 cast) is built; however three
nodes — shape, float cast and the batch-size slice — are still added
unconditionally. -/
theorem c9_explicit_seq_len_bound_directly
    (g : TGraph) (ctx : Ctx) (nd : ONode) (hseq : ctx.seq_len_node = some nd) :
    (process_seq_length g ctx).1.onnx_input_ids.lookup "sequence_lens" = some nd.output ∧
    ((process_seq_length g ctx).2.nodes.drop g.nodes.length).map ONode.op =
      ["Shape", "Cast", "Slice"] := by
  constructor
  · simp [process_seq_length, hseq, dictInsert_lookup_self]
  · simp only [process_seq_length, hseq, TGraph.make_node, make_slice, List.append_assoc,
      List.singleton_append, List.cons_append, List.nil_append]
    rw [List.drop_left]
    rfl

/-- Witness for the amended C9 at a concrete found node. -/
theorem c9_witness :
    (process_seq_length gE ctxC9).1.onnx_input_ids.lookup "sequence_lens" =
      some ndSelect.output ∧
    ((process_seq_length gE ctxC9).2.nodes.drop gE.nodes.length).map ONode.op =
      ["Shape", "Cast", "Slice"] :=
  c9_explicit_seq_len_bound_directly gE ctxC9 ndSelect rfl

/-- C8: output reconciliation. With at least one scan-output exit consumer, a
single squeeze over axis 1 only is created, its recorded output shape drops
the direction axis from `[T, 1, B, H]` to `[T, B, H]`, and every node input
that referenced the original output identifier is rewired to the squeeze
output; with zero scan-output exits, the graph is returned unchanged — no new
node and no rewiring. -/
theorem c8_output_reconciliation (g : TGraph) (ctx : Ctx) :
    (ctx.loop_properties.scan_outputs_exits = [] →
      connect_unit_rnn_output_to_graph g ctx = .ok g) ∧
    (∀ out0 rest rn t b h0,
      ctx.loop_properties.scan_outputs_exits = out0 :: rest →
      ctx.rnn_node = some rn →
      g.get_shape rn.output = some [t, 1, b, h0] →
      rn.output ≠ out0.id →
      freshId g.fresh ≠ out0.id →
      ∃ g1, connect_unit_rnn_output_to_graph g ctx = .ok g1 ∧
        g1.nodes.length = g.nodes.length + 1 ∧
        (∃ sq, g1.nodes.getLast? = some sq ∧ sq.op = "Squeeze" ∧
          sq.attrs = [("axes", [1])] ∧ sq.inputs = [rn.output] ∧
          g1.get_shape sq.output = some [t, b, h0]) ∧
        (∀ nd ∈ g1.nodes, out0.id ∉ nd.inputs) ∧
        (∀ k, k < g.nodes.length →
          ∃ ndo ndn, g.nodes[k]? = some ndo ∧ g1.nodes[k]? = some ndn ∧
            ndn.inputs = ndo.inputs.map
              (fun s => if s = out0.id then freshId g.fresh else s))) := by
  constructor
  · intro he
    simp [connect_unit_rnn_output_to_graph, he]
  · intro out0 rest rn t b h0 he hrn hshape hne hfne
    simp only [connect_unit_rnn_output_to_graph, he, hrn, hshape, TGraph.make_node]
    refine ⟨_, rfl, ?_, ?_, ?_, ?_⟩
    · simp [TGraph.replace_all_inputs]
    · refine ⟨⟨"Squeeze", [rn.output], [("axes", [1])], freshId g.fresh⟩, ?_, rfl, rfl, rfl, ?_⟩
      · simp [TGraph.replace_all_inputs, List.map_append, List.getLast?_concat,
          ONode.replace_input, hne]
      · simp [TGraph.replace_all_inputs, TGraph.get_shape, List.lookup]
    · intro nd hnd
      simp only [TGraph.replace_all_inputs, List.mem_map] at hnd
      obtain ⟨x, hx, rfl⟩ := hnd
      intro hmem
      simp only [ONode.replace_input, List.mem_map] at hmem
      obtain ⟨s, hs, hseq⟩ := hmem
      by_cases hcase : s = out0.id
      · rw [if_pos hcase] at hseq
        exact hfne hseq
      · rw [if_neg hcase] at hseq
        exact hcase hseq
    · intro k hk
      refine ⟨g.nodes.get ⟨k, hk⟩,
        (g.nodes.get ⟨k, hk⟩).replace_input out0.id (freshId g.fresh), ?_, ?_, rfl⟩
      · simp [List.getElem?_eq_getElem, hk]
      · simp only [TGraph.replace_all_inputs]
        rw [List.getElem?_map, List.getElem?_append_left hk]
        simp [List.getElem?_eq_getElem, hk]

/-- The fused target node of the C8 witness. -/
def rnW : ONode := ⟨"LSTM", ["xin"], [], "rnn_out"⟩

/-- A consumer of the original scan-output exit identifier. -/
def ndCons : ONode := ⟨"Identity", ["gather_out"], [], "cons_out"⟩

/-- A graph holding that consumer and the fused node's recorded 4-axis
shape. -/
def gC8 : TGraph := ⟨[ndCons], 0, [("rnn_out", [7, 1, 3, 8])], []⟩

/-- A rewritten context whose loop has one scan-output exit. -/
def ctxC8 : Ctx :=
  { ctxE with
      loop_properties := ⟨[], [], [], [], ["xin"], [⟨"gather_out"⟩]⟩,
      rnn_node := some rnW }

/-- Witness for C8 at a concrete rewritten candidate with one consumer. -/
theorem c8_witness :
    ∃ g1, connect_unit_rnn_output_to_graph gC8 ctxC8 = .ok g1 ∧
      g1.nodes.length = gC8.nodes.length + 1 ∧
      (∃ sq, g1.nodes.getLast? = some sq ∧ sq.op = "Squeeze" ∧
        sq.attrs = [("axes", [1])] ∧ sq.inputs = [rnW.output] ∧
        g1.get_shape sq.output = some [7, 3, 8]) ∧
      (∀ nd ∈ g1.nodes, (⟨"gather_out"⟩ : TValInfo).id ∉ nd.inputs) ∧
      (∀ k, k < gC8.nodes.length →
        ∃ ndo ndn, gC8.nodes[k]? = some ndo ∧ g1.nodes[k]? = some ndn ∧
          ndn.inputs = ndo.inputs.map
            (fun s => if s = (⟨"gather_out"⟩ : TValInfo).id then freshId gC8.fresh else s)) :=
  (c8_output_reconciliation gC8 ctxC8).2 ⟨"gather_out"⟩ [] rnW 7 3 8 rfl rfl rfl
    (by decide) (by decide)

end UnitRnn
